import Mathlib

/-!
Verification of the kube-browser remote file-access core (pkg/k8s/client.go,
helper-pod revision) and the handlers-side path sanitizer.

The Go code is shallowly embedded: pure string processing (the three listing
parsers, path cleaning) becomes executable Lean functions over the same
primitives (strings.Split / Fields / TrimSpace / HasPrefix / Contains /
SplitN / Join, filepath.Base / Clean modelled faithfully for how the code
calls them), and each remote side effect (pod listing, exec, pod
create/get/delete, stream) is an explicit oracle field recording the outcome
the cluster would return at that call site.  Orchestration functions
(ListFiles, DownloadFile, UploadFile, createHelperPod, tryListFiles) are
translated line by line from the source as pure functions of those oracles,
returning the result together with a trace of the scheduled side effects.
-/

deriving instance DecidableEq for Except

namespace KubeBrowser

/-! ## String primitives (Go strings/filepath semantics, structural) -/

/-- Go unicode.IsSpace for the characters that can occur in the inputs the
code handles (ASCII whitespace plus NEL and NBSP). -/
def goIsSpace (c : Char) : Bool :=
  c = ' ' || c = '\t' || c = '\n' || c = '\x0b' || c = '\x0c' || c = '\r' ||
  c = '\u0085' || c = ' '

/-- Split a character list on a separator character; models
strings.Split(s, sep) for a one-character separator. -/
def splitChar (sep : Char) : List Char → List (List Char)
  | [] => [[]]
  | c :: cs =>
    let r := splitChar sep cs
    if c = sep then [] :: r
    else
      match r with
      | [] => [[c]]
      | h :: t => (c :: h) :: t

/-- Split a character list at every character satisfying a predicate. -/
def splitPred (p : Char → Bool) : List Char → List (List Char)
  | [] => [[]]
  | c :: cs =>
    let r := splitPred p cs
    if p c then [] :: r
    else
      match r with
      | [] => [[c]]
      | h :: t => (c :: h) :: t

/-- strings.Split(s, "\n"). -/
def goLines (s : String) : List String :=
  (splitChar '\n' s.data).map String.mk

/-- strings.Fields: split around runs of whitespace, dropping empty pieces. -/
def goFields (s : String) : List String :=
  ((splitPred goIsSpace s.data).filter (fun l => l ≠ [])).map String.mk

/-- strings.TrimSpace. -/
def goTrim (s : String) : String :=
  String.mk (((s.data.dropWhile goIsSpace).reverse.dropWhile goIsSpace).reverse)

/-- Boolean prefix test on character lists. -/
def listStarts : List Char → List Char → Bool
  | [], _ => true
  | _ :: _, [] => false
  | p :: ps, c :: cs => p = c && listStarts ps cs

/-- strings.HasPrefix(s, pre). -/
def strStarts (s pre : String) : Bool :=
  listStarts pre.data s.data

/-- Boolean substring test on character lists (pattern, then haystack). -/
def listHasSub (pat : List Char) : List Char → Bool
  | [] => listStarts pat []
  | c :: cs => listStarts pat (c :: cs) || listHasSub pat cs

/-- strings.Contains(s, pat). -/
def strContains (s pat : String) : Bool :=
  listHasSub pat.data s.data

/-- strings.Join(xs, sep). -/
def joinSep (sep : String) : List String → String
  | [] => ""
  | [x] => x
  | x :: y :: xs => x ++ sep ++ joinSep sep (y :: xs)

/-- Break a character list at the first occurrence of a character. -/
def breakAtChar (sep : Char) : List Char → Option (List Char × List Char)
  | [] => none
  | c :: cs =>
    if c = sep then some ([], cs)
    else (breakAtChar sep cs).map (fun ab => (c :: ab.1, ab.2))

/-- strings.SplitN(s, sep, n) for a one-character separator: at most n
pieces, the last piece left unsplit. -/
def splitCharN (sep : Char) : List Char → Nat → List (List Char)
  | _, 0 => []
  | l, 1 => [l]
  | l, n + 2 =>
    match breakAtChar sep l with
    | none => [l]
    | some (pre, post) => pre :: splitCharN sep post (n + 1)

/-- strings.SplitN on Strings. -/
def goSplitN (s : String) (sep : Char) (n : Nat) : List String :=
  (splitCharN sep s.data n).map String.mk

/-- strings.TrimPrefix(s, pre): drop pre when it leads s, else s unchanged. -/
def trimPre (s pre : String) : String :=
  if strStarts s pre then String.mk (s.data.drop pre.data.length) else s

/-- filepath.Base on unix: empty gives ".", all-slash gives "/", otherwise
the last path element after trailing slashes are removed. -/
def goBase (p : String) : String :=
  if p = "" then "."
  else
    let trimmed := (p.data.reverse.dropWhile (fun c => c = '/')).reverse
    if trimmed = [] then "/"
    else String.mk ((trimmed.reverse.takeWhile (fun c => c ≠ '/')).reverse)

/-- One step of the lexical-clean stack: skip empty and "." elements, pop on
"..", push anything else. -/
def cleanStep (st : List String) (c : String) : List String :=
  if c = "" || c = "." then st
  else if c = ".." then st.dropLast
  else st ++ [c]

/-- filepath.Clean on a rooted unix path (the sanitizer always calls it on
"/" ++ p, so the rooted case is the only one exercised): split into
elements, resolve "." and ".." lexically against a stack (".." at the root
is dropped), and rejoin under the leading "/". -/
def goCleanRooted (p : String) : String :=
  "/" ++ joinSep "/" (((splitChar '/' p.data).map String.mk).foldl cleanStep [])

/-- pkg/handlers sanitizePath: clean "/" ++ p, and collapse to "/" whenever
the cleaned result still contains ".." anywhere. -/
def sanitizePath (p : String) : String :=
  let cleaned := goCleanRooted ("/" ++ p)
  if strContains cleaned ".." then "/" else cleaned

/-! ## Data model (pkg/k8s) -/

/-- FileInfo as returned by the listing strategies. -/
structure FileInfo where
  name : String
  size : String
  modTime : String
  isDir : Bool
  path : String
deriving DecidableEq, Repr

/-- A container volumeMount (name + mountPath). -/
structure VolumeMount where
  name : String
  mountPath : String
deriving DecidableEq, Repr

/-- A pod container: its name and volume mounts. -/
structure Container where
  name : String
  volumeMounts : List VolumeMount
deriving DecidableEq, Repr

/-- A pod volume: its name and, when it is a PVC volume, the claim name. -/
structure Volume where
  name : String
  claimName : Option String
deriving DecidableEq, Repr

/-- The slice of a pod the locator reads: name, phase, declared volumes,
containers, and the node it is scheduled on. -/
structure Pod where
  name : String
  phase : String
  volumes : List Volume
  containers : List Container
  nodeName : String
deriving DecidableEq, Repr

/-- podPVCInfo: the placement record produced by findPodForPVC. -/
structure podPVCInfo where
  podName : String
  containerName : String
  mountPath : String
  volumeName : String
  nodeName : String
deriving DecidableEq, Repr

/-! ## Volume-mount locator (findPodForPVC) -/

/-- Inner container scan: first container holding a volumeMount whose name
equals the volume's name, returning that container's name and the mount
path. -/
def mountForVolume (vol : Volume) (cs : List Container) : Option (String × String) :=
  cs.findSome? fun c =>
    (c.volumeMounts.find? (fun m => m.name = vol.name)).map fun m => (c.name, m.mountPath)

/-- Per-pod scan of findPodForPVC: skip non-running pods; over declared
volumes, find one referencing the claim for which some container actually
mounts it. -/
def findInPod (pvcName : String) (pod : Pod) : Option podPVCInfo :=
  if pod.phase = "Running" then
    pod.volumes.findSome? fun vol =>
      if vol.claimName = some pvcName then
        (mountForVolume vol pod.containers).map fun cm =>
          { podName := pod.name, containerName := cm.1, mountPath := cm.2,
            volumeName := vol.name, nodeName := pod.nodeName }
      else none
  else none

/-- findPodForPVC: list pods (the API call may fail), return the first
running pod that both declares and mounts the claim, else the not-found
error. -/
def findPodForPVC (podsResult : Except String (List Pod)) (pvcName : String) :
    Except String podPVCInfo :=
  match podsResult with
  | .error e => .error e
  | .ok pods =>
    match pods.findSome? (findInPod pvcName) with
    | some info => .ok info
    | none => .error ("no running pod found mounting PVC " ++ pvcName)

/-! ## Listing strategy parsers -/

/-- Path normalization shared by all three strategies: relative to the
volume root. -/
def relPath (path name : String) : String :=
  if path = "" || path = "/" then name else path ++ "/" ++ name

/-- One line of strategy 1 (ls -la --time-style=long-iso): trim; drop blank
and "total" lines; require at least 8 fields; name is fields 8+, size field
5, modTime fields 6 and 7; drop "." and ".."; directory when field 1 starts
with "d". -/
def gnuLsParseLine (path line0 : String) : Option FileInfo :=
  let line := goTrim line0
  if line = "" || strStarts line "total" then none
  else
    let fields := goFields line
    if fields.length < 8 then none
    else
      let name := joinSep " " (fields.drop 7)
      if name = "." || name = ".." then none
      else
        some { name := name,
               size := fields.getD 4 "",
               modTime := fields.getD 5 "" ++ " " ++ fields.getD 6 "",
               isDir := strStarts (fields.getD 0 "") "d",
               path := relPath path name }

/-- Strategy 1 stdout parse: split on newlines and keep accepted lines. -/
def parseGNUls (path stdout : String) : List FileInfo :=
  (goLines stdout).filterMap (gnuLsParseLine path)

/-- One line of strategy 2 (busybox ls -la): trim; drop blank and "total"
lines; require at least 6 fields; choose offsets by total field count
(9+, 8, else), always taking the trailing run as the name; drop ".", ".."
and empty names. -/
def busyboxParseLine (path line0 : String) : Option FileInfo :=
  let line := goTrim line0
  if line = "" || strStarts line "total" then none
  else
    let fields := goFields line
    if fields.length < 6 then none
    else
      let isDir := strStarts (fields.getD 0 "") "d"
      let smn :=
        if fields.length ≥ 9 then
          (fields.getD 4 "",
           fields.getD 5 "" ++ " " ++ fields.getD 6 "" ++ " " ++ fields.getD 7 "",
           joinSep " " (fields.drop 8))
        else if fields.length ≥ 8 then
          (fields.getD 4 "",
           fields.getD 5 "" ++ " " ++ fields.getD 6 "",
           joinSep " " (fields.drop 7))
        else
          (fields.getD 3 "", fields.getD 4 "", joinSep " " (fields.drop 5))
      if smn.2.2 = "." || smn.2.2 = ".." || smn.2.2 = "" then none
      else
        some { name := smn.2.2, size := smn.1, modTime := smn.2.1,
               isDir := isDir, path := relPath path smn.2.2 }

/-- Strategy 2 stdout parse. -/
def parseBusybox (path stdout : String) : List FileInfo :=
  (goLines stdout).filterMap (busyboxParseLine path)

/-- One line of strategy 3 (find + stat, falling back to bare find inside
the same shell): a 4-part "name|size|mtime|typeTag" record, or a bare path
with placeholder metadata. -/
def findParseLine (fullPath path line0 : String) : Option FileInfo :=
  let line := goTrim line0
  if line = "" then none
  else
    let parts := goSplitN line '|' 4
    if parts.length = 4 then
      let name0 := parts.getD 0 ""
      let name :=
        if strStarts name0 fullPath then trimPre (trimPre name0 fullPath) "/"
        else name0
      if name = "" || name = "." || name = ".." then none
      else
        some { name := name, size := parts.getD 1 "", modTime := parts.getD 2 "",
               isDir := strContains (parts.getD 3 "") "directory",
               path := relPath path name }
    else
      let name :=
        if strStarts line fullPath then trimPre (trimPre line fullPath) "/"
        else line
      if name = "" || name = "." || name = ".." then none
      else
        some { name := name, size := "0", modTime := "-", isDir := false,
               path := relPath path name }

/-- Strategy 3 stdout parse. -/
def parseFind (fullPath path stdout : String) : List FileInfo :=
  (goLines stdout).filterMap (findParseLine fullPath path)

/-! ## Remote execution oracles and the listing chain -/

/-- Outcome of one execInPod call: captured stdout and stderr, and the error
(none means the remote command ran and exited zero). -/
structure ExecOutcome where
  stdout : String
  stderr : String
  err : Option String
deriving DecidableEq, Repr

/-- The remote outcomes of the three listing-strategy commands against one
target container. -/
structure ListChainOutcomes where
  gnuLs : ExecOutcome
  busybox : ExecOutcome
  findStat : ExecOutcome
deriving DecidableEq, Repr

/-- listFilesGNUls: run ls -la --time-style=long-iso on mountPath/path and
parse, failing with the exec error when the command could not run. -/
def listFilesGNUls (r : ExecOutcome) (path : String) :
    Except String (List FileInfo) :=
  match r.err with
  | some e => .error e
  | none => .ok (parseGNUls path r.stdout)

/-- listFilesBusybox: run plain ls -la and parse. -/
def listFilesBusybox (r : ExecOutcome) (path : String) :
    Except String (List FileInfo) :=
  match r.err with
  | some e => .error e
  | none => .ok (parseBusybox path r.stdout)

/-- listFilesFind: run the find/stat shell one-liner and parse; the parser
needs the full path mountPath/path to strip it back off the names. -/
def listFilesFind (r : ExecOutcome) (mountPath path : String) :
    Except String (List FileInfo) :=
  match r.err with
  | some e => .error e
  | none => .ok (parseFind (mountPath ++ "/" ++ path) path r.stdout)

/-- tryListFiles: the ordered three-strategy chain; the first strategy whose
exec succeeds wins, and only when all three execs fail does the chain return
the all-methods-failed error naming the container. -/
def tryListFiles (r : ListChainOutcomes) (containerName mountPath path : String) :
    Except String (List FileInfo) :=
  match listFilesGNUls r.gnuLs path with
  | .ok files => .ok files
  | .error _ =>
    match listFilesBusybox r.busybox path with
    | .ok files => .ok files
    | .error _ =>
      match listFilesFind r.findStat mountPath path with
      | .ok files => .ok files
      | .error _ =>
        .error ("all listing methods failed on container " ++ containerName)

/-! ## Helper pod lifecycle (createHelperPod / deleteHelperPod) -/

/-- The pod spec createHelperPod submits, with every field the source sets. -/
structure HelperPodSpec where
  name : String
  ns : String
  labels : List (String × String)
  nodeName : String
  containerName : String
  image : String
  command : List String
  volumeMountName : String
  volumeMountPath : String
  volumeName : String
  volumeClaimName : String
  restartPolicy : String
deriving DecidableEq, Repr

/-- The deterministic helper pod name. -/
def helperPodName (pvcName : String) : String :=
  "kube-browser-helper-" ++ pvcName

/-- The helper pod spec: pinned to the node, mounting the claim at /data,
alpine image kept alive by an inert sleep. -/
def helperPodSpec (ns pvcName nodeName : String) : HelperPodSpec :=
  { name := helperPodName pvcName
    ns := ns
    labels := [("app", "kube-browser-helper"), ("managed-by", "kube-browser")]
    nodeName := nodeName
    containerName := "helper"
    image := "alpine:3.19"
    command := ["sleep", "300"]
    volumeMountName := "pvc-data"
    volumeMountPath := "/data"
    volumeName := "pvc-data"
    volumeClaimName := pvcName
    restartPolicy := "Never" }

/-- The cluster operations createHelperPod performs, in order. -/
inductive HelperAction where
  | deletePod (name : String)
  | sleepSec (n : Nat)
  | createPod (spec : HelperPodSpec)
  | getPod (name : String)
deriving DecidableEq, Repr

/-- Oracle for one createHelperPod run: outcome of the pre-delete, of the
create, and of each readiness Get (an error, or the observed pod phase). -/
structure HelperOracle where
  deletePre : Except String Unit
  createResult : Except String Unit
  polls : Nat → Except String String

/-- The readiness poll loop: up to fuel iterations, each a 2-second sleep
followed by a Get; a Get error or a non-Running phase moves to the next
iteration, a Running phase stops with success. -/
def pollHelperLoop (polls : Nat → Except String String) (helperName : String) :
    Nat → Nat → Bool × List HelperAction
  | _, 0 => (false, [])
  | start, fuel + 1 =>
    let acts := [HelperAction.sleepSec 2, HelperAction.getPod helperName]
    match polls start with
    | .error _ =>
      let r := pollHelperLoop polls helperName (start + 1) fuel
      (r.1, acts ++ r.2)
    | .ok phase =>
      if phase = "Running" then (true, acts)
      else
        let r := pollHelperLoop polls helperName (start + 1) fuel
        (r.1, acts ++ r.2)

/-- createHelperPod: delete any pre-existing pod of the deterministic name
(outcome discarded), sleep 2s, create the spec above, then poll readiness up
to 30 times; on success return the helper name, on timeout delete the pod
and fail. -/
def createHelperPod (o : HelperOracle) (ns pvcName volumeName nodeName : String) :
    Except String String × List HelperAction :=
  let helperName := helperPodName pvcName
  let spec := helperPodSpec ns pvcName nodeName
  let pre := [HelperAction.deletePod helperName, HelperAction.sleepSec 2,
              HelperAction.createPod spec]
  match o.createResult with
  | .error ce => (.error ("failed to create helper pod: " ++ ce), pre)
  | .ok _ =>
    let r := pollHelperLoop o.polls helperName 0 30
    if r.1 then (.ok helperName, pre ++ r.2)
    else (.error "helper pod did not start in time",
          pre ++ r.2 ++ [HelperAction.deletePod helperName])

/-- deleteHelperPod: fire the delete and log either a warning or a success
line; nothing is returned to the caller. -/
def deleteHelperPod (deleteResult : Except String Unit) (podName : String) :
    String :=
  match deleteResult with
  | .error e => "Warning: failed to delete helper pod " ++ podName ++ ": " ++ e
  | .ok _ => "Deleted helper pod " ++ podName

/-! ## Transfer orchestrators -/

/-- Oracle for one ListFiles run: the pod-list API result, the direct
listing-chain outcomes, the helper lifecycle oracle, the listing-chain
outcomes against the helper, and the async teardown's delete outcome. -/
structure ListFilesOracle where
  pods : Except String (List Pod)
  direct : ListChainOutcomes
  helper : HelperOracle
  helperChain : ListChainOutcomes
  deleteResult : Except String Unit

/-- ListFiles: locate the placement, try the chain directly, and on total
failure provision a helper, retry the chain against it at /data, schedule
the async teardown (whose log lines are the second component), and only then
inspect the helper attempt's outcome. -/
def ListFiles (o : ListFilesOracle) (ns pvcName path : String) :
    Except String (List FileInfo) × List String :=
  match findPodForPVC o.pods pvcName with
  | .error e => (.error e, [])
  | .ok info =>
    match tryListFiles o.direct info.containerName info.mountPath path with
    | .ok files => (.ok files, [])
    | .error e =>
      match (createHelperPod o.helper ns pvcName info.volumeName info.nodeName).1 with
      | .error he =>
        (.error ("direct exec failed (" ++ e ++ ") and helper pod creation failed ("
                 ++ he ++ ")"), [])
      | .ok helperName =>
        let res := tryListFiles o.helperChain "helper" "/data" path
        let logLine := deleteHelperPod o.deleteResult helperName
        match res with
        | .ok files => (.ok files, [logLine])
        | .error he =>
          (.error ("failed to list files even with helper pod: " ++ he), [logLine])

/-- Oracle for one DownloadFile run. -/
structure DownloadOracle where
  pods : Except String (List Pod)
  directCat : ExecOutcome
  helper : HelperOracle
  helperCat : ExecOutcome
  deleteResult : Except String Unit

/-- DownloadFile: locate, cat the file directly; on any exec failure
provision a helper and cat /data/filePath from it, scheduling teardown; the
success value is the captured stdout plus the base file name. -/
def DownloadFile (o : DownloadOracle) (ns pvcName filePath : String) :
    Except String (String × String) × List String :=
  match findPodForPVC o.pods pvcName with
  | .error e => (.error e, [])
  | .ok info =>
    let fileName := goBase filePath
    match o.directCat.err with
    | none => (.ok (o.directCat.stdout, fileName), [])
    | some execErr =>
      match (createHelperPod o.helper ns pvcName info.volumeName info.nodeName).1 with
      | .error _ => (.error ("download failed: " ++ execErr), [])
      | .ok helperName =>
        match o.helperCat.err with
        | none =>
          (.ok (o.helperCat.stdout, fileName),
           [deleteHelperPod o.deleteResult helperName])
        | some e2 =>
          (.error ("download failed even with helper pod: " ++ e2),
           [deleteHelperPod o.deleteResult helperName])

/-- The remote side effects an UploadFile run performs, in order. -/
inductive RemoteAction where
  | execCreate (pod : String)
  | provisionHelper
  | streamWrite (bytes : List Nat)
  | teardown (pod : String)
deriving DecidableEq, Repr

/-- Oracle for one UploadFile run: pod list, the io.Copy buffering outcome,
the SPDY executor-creation outcomes against the real pod and the helper, the
single stream outcome with its captured stderr, and the teardown outcome. -/
structure UploadOracle where
  pods : Except String (List Pod)
  readData : Except String (List Nat)
  directExecCreate : Except String Unit
  helper : HelperOracle
  helperExecCreate : Except String Unit
  streamErr : Option String
  streamStderr : String
  deleteResult : Except String Unit

/-- UploadFile: locate, buffer the whole payload, build the tee executor
against the real pod; only if building it fails provision a helper and build
it there (scheduling teardown); then run the single stream feeding the
buffered bytes, any stream failure being terminal with the remote stderr as
the message. -/
def UploadFile (o : UploadOracle) (ns pvcName destPath : String) :
    Except String Unit × List RemoteAction :=
  match findPodForPVC o.pods pvcName with
  | .error e => (.error e, [])
  | .ok info =>
    match o.readData with
    | .error re => (.error ("failed to read upload data: " ++ re), [])
    | .ok buf =>
      match o.directExecCreate with
      | .ok _ =>
        match o.streamErr with
        | none => (.ok (), [.execCreate info.podName, .streamWrite buf])
        | some _ =>
          (.error ("failed to upload file: " ++ o.streamStderr),
           [.execCreate info.podName, .streamWrite buf])
      | .error execErr =>
        match (createHelperPod o.helper ns pvcName info.volumeName info.nodeName).1 with
        | .error _ =>
          (.error ("upload failed: " ++ execErr),
           [.execCreate info.podName, .provisionHelper])
        | .ok h =>
          match o.helperExecCreate with
          | .error e2 =>
            (.error ("upload failed even with helper pod: " ++ e2),
             [.execCreate info.podName, .provisionHelper, .execCreate h,
              .teardown h])
          | .ok _ =>
            match o.streamErr with
            | none =>
              (.ok (), [.execCreate info.podName, .provisionHelper,
                        .execCreate h, .streamWrite buf, .teardown h])
            | some _ =>
              (.error ("failed to upload file: " ++ o.streamStderr),
               [.execCreate info.podName, .provisionHelper, .execCreate h,
                .streamWrite buf, .teardown h])

/-- A pod both declares the claim among its volumes and actually mounts the
matching volume from some container (the condition findPodForPVC selects
on, beyond the running-phase filter). -/
def declaresAndMounts (p : Pod) (pvc : String) : Bool :=
  p.volumes.any fun v =>
    v.claimName = some pvc &&
    p.containers.any fun c => c.volumeMounts.any fun m => m.name = v.name

/-! ## Concrete fixtures used by witnesses and counterexamples -/

/-- A running pod mounting claim mypvc at /var/data from container app. -/
def samplePod : Pod :=
  { name := "app-pod", phase := "Running",
    volumes := [{ name := "data", claimName := some "mypvc" }],
    containers := [{ name := "app",
                     volumeMounts := [{ name := "data", mountPath := "/var/data" }] }],
    nodeName := "node1" }

/-- The same pod shape but Pending: it declares and mounts the claim while
not running. -/
def samplePodNotRunning : Pod :=
  { samplePod with name := "app-pod-pending", phase := "Pending" }

/-- A running pod that declares the claim among its volumes but whose only
container has no matching volumeMount. -/
def samplePodNoMount : Pod :=
  { name := "app-pod-nomount", phase := "Running",
    volumes := [{ name := "data", claimName := some "mypvc" }],
    containers := [{ name := "app", volumeMounts := [] }],
    nodeName := "node2" }

/-- An exec outcome for a command that could not run. -/
def execFail : ExecOutcome :=
  { stdout := "", stderr := "sh: not found", err := some "exec failed" }

/-- All three listing strategies fail to execute. -/
def chainFailAll : ListChainOutcomes :=
  { gnuLs := execFail, busybox := execFail, findStat := execFail }

/-- The first strategy executes fine but its stdout holds zero entries. -/
def chainOkEmpty : ListChainOutcomes :=
  { gnuLs := { stdout := "total 0\n", stderr := "", err := none },
    busybox := execFail, findStat := execFail }

/-- A helper lifecycle that provisions cleanly and is Running at once. -/
def helperOK : HelperOracle :=
  { deletePre := .ok (), createResult := .ok (), polls := fun _ => .ok "Running" }

/-- A helper lifecycle whose create call is rejected. -/
def helperFailCreate : HelperOracle :=
  { deletePre := .ok (), createResult := .error "quota exceeded",
    polls := fun _ => .ok "Pending" }

/-- A helper lifecycle that provisions but never leaves Pending. -/
def helperStuck : HelperOracle :=
  { deletePre := .ok (), createResult := .ok (), polls := fun _ => .ok "Pending" }

/-- ListFiles run where the direct chain and the helper chain both fail. -/
def c1CexOracle : ListFilesOracle :=
  { pods := .ok [samplePod], direct := chainFailAll, helper := helperOK,
    helperChain := chainFailAll, deleteResult := .ok () }

/-- ListFiles run where the direct chain fails and helper creation fails. -/
def c1WitListOracle : ListFilesOracle :=
  { pods := .ok [samplePod], direct := chainFailAll, helper := helperFailCreate,
    helperChain := chainOkEmpty, deleteResult := .ok () }

/-- DownloadFile run where the direct cat fails and helper creation fails. -/
def c1WitDownOracle : DownloadOracle :=
  { pods := .ok [samplePod], directCat := execFail, helper := helperFailCreate,
    helperCat := execFail, deleteResult := .ok () }

/-- DownloadFile run where the direct cat and the helper cat both fail. -/
def c1WitDownOracle2 : DownloadOracle :=
  { pods := .ok [samplePod], directCat := execFail, helper := helperOK,
    helperCat := { stdout := "", stderr := "", err := some "cat: no such file" },
    deleteResult := .ok () }

/-- UploadFile run where the direct executor cannot be built and helper
creation fails. -/
def c1WitUpOracle : UploadOracle :=
  { pods := .ok [samplePod], readData := .ok [104, 105],
    directExecCreate := .error "no SPDY channel", helper := helperFailCreate,
    helperExecCreate := .error "no SPDY channel either", streamErr := none,
    streamStderr := "", deleteResult := .ok () }

/-- UploadFile run where the helper executor cannot be built either. -/
def c1WitUpOracle2 : UploadOracle :=
  { c1WitUpOracle with helper := helperOK }

/-- ListFiles run that needs the helper, succeeds through it, and whose
async teardown fails. -/
def c3WitOracle : ListFilesOracle :=
  { pods := .ok [samplePod], direct := chainFailAll, helper := helperOK,
    helperChain := chainOkEmpty, deleteResult := .error "boom" }

/-- UploadFile run whose remote command starts and then exits non-zero. -/
def c7WitOracle : UploadOracle :=
  { pods := .ok [samplePod], readData := .ok [104, 105],
    directExecCreate := .ok (), helper := helperOK, helperExecCreate := .ok (),
    streamErr := some "command terminated with exit code 1",
    streamStderr := "tee: no space left", deleteResult := .ok () }

/-- UploadFile run whose payload cannot even be buffered. -/
def c7WitReadFailOracle : UploadOracle :=
  { c7WitOracle with readData := .error "connection reset", streamErr := none }

/-! ## Shared lemmas -/

theorem listStarts_append_self (p r : List Char) : listStarts p (p ++ r) = true := by
  induction p with
  | nil => rfl
  | cons c cs ih => simp [listStarts, ih]

theorem listHasSub_of_starts {pat l : List Char} (h : listStarts pat l = true) :
    listHasSub pat l = true := by
  cases l with
  | nil => simpa [listHasSub] using h
  | cons c cs => simp [listHasSub, h]

theorem listHasSub_cons {pat l : List Char} (c : Char)
    (h : listHasSub pat l = true) : listHasSub pat (c :: l) = true := by
  simp [listHasSub, h]

theorem listHasSub_mid (pat b : List Char) :
    ∀ a : List Char, listHasSub pat (a ++ (pat ++ b)) = true := by
  intro a
  induction a with
  | nil => exact listHasSub_of_starts (listStarts_append_self pat b)
  | cons c cs ih => exact listHasSub_cons c ih

/-- A string built as front ++ mid ++ back always contains mid. -/
theorem strContains_mid (front mid back : String) :
    strContains (front ++ (mid ++ back)) mid = true := by
  unfold strContains
  rw [String.data_append, String.data_append]
  exact listHasSub_mid mid.data back.data front.data

theorem strStarts_slash_append (x : String) : strStarts ("/" ++ x) "/" = true := by
  cases x with
  | mk d => rfl

/-- The lexical clean of a rooted path is rooted. -/
theorem goCleanRooted_starts (p : String) :
    strStarts (goCleanRooted p) "/" = true :=
  strStarts_slash_append _

/-! ## C10 -/

/-- C10: sanitizePath always returns a rooted path with no ".." substring;
it lexically cleans "/" ++ p and collapses the result to "/" whenever the
cleaned path still contains ".." anywhere. -/
theorem c10_sanitizePath (p : String) :
    strStarts (sanitizePath p) "/" = true ∧
    strContains (sanitizePath p) ".." = false ∧
    (strContains (goCleanRooted ("/" ++ p)) ".." = true → sanitizePath p = "/") := by
  have hdef : sanitizePath p =
      (if strContains (goCleanRooted ("/" ++ p)) ".." = true then "/"
       else goCleanRooted ("/" ++ p)) := rfl
  by_cases h : strContains (goCleanRooted ("/" ++ p)) ".." = true
  · rw [hdef, if_pos h]
    exact ⟨by decide, by decide, fun _ => rfl⟩
  · rw [hdef, if_neg h]
    refine ⟨goCleanRooted_starts _, ?_, fun hc => absurd hc h⟩
    cases hx : strContains (goCleanRooted ("/" ++ p)) ".." with
    | false => rfl
    | true => exact absurd hx h

/-- C10 witness: a legitimate-looking name containing ".." collapses the
whole path to "/". -/
theorem c10_witness :
    strContains (goCleanRooted ("/" ++ "a..b")) ".." = true ∧
    sanitizePath "a..b" = "/" :=
  ⟨by decide, (c10_sanitizePath "a..b").2.2 (by decide)⟩

/-! ## Locator lemmas -/

theorem findPodForPVC_ok_def (pods : List Pod) (pvc : String) :
    findPodForPVC (.ok pods) pvc =
      (match pods.findSome? (findInPod pvc) with
       | some info => Except.ok info
       | none => Except.error ("no running pod found mounting PVC " ++ pvc)) := rfl

theorem declaresAndMounts_eq_true (p : Pod) (pvc : String) :
    declaresAndMounts p pvc = true ↔
    ∃ v ∈ p.volumes, v.claimName = some pvc ∧
      ∃ c ∈ p.containers, ∃ m ∈ c.volumeMounts, m.name = v.name := by
  unfold declaresAndMounts
  simp [List.any_eq_true, Bool.and_eq_true, decide_eq_true_eq]

theorem mountForVolume_none_of (vol : Volume) (cs : List Container)
    (h : ∀ c ∈ cs, ∀ m ∈ c.volumeMounts, m.name ≠ vol.name) :
    mountForVolume vol cs = none := by
  unfold mountForVolume
  rw [List.findSome?_eq_none_iff]
  intro c hc
  rw [Option.map_eq_none', List.find?_eq_none]
  intro m hm
  simp only [decide_eq_true_eq]
  exact h c hc m hm

theorem findInPod_none_of (pvc : String) (p : Pod)
    (h : ∀ v ∈ p.volumes, v.claimName = some pvc →
         ∀ c ∈ p.containers, ∀ m ∈ c.volumeMounts, m.name ≠ v.name) :
    findInPod pvc p = none := by
  unfold findInPod
  by_cases hp : p.phase = "Running"
  · rw [if_pos hp, List.findSome?_eq_none_iff]
    intro v hv
    by_cases hc : v.claimName = some pvc
    · rw [if_pos hc, Option.map_eq_none']
      exact mountForVolume_none_of v p.containers (h v hv hc)
    · rw [if_neg hc]
  · rw [if_neg hp]

theorem mountForVolume_some (vol : Volume) (cs : List Container)
    {cm : String × String} (h : mountForVolume vol cs = some cm) :
    ∃ c ∈ cs, c.name = cm.1 ∧
      ∃ m ∈ c.volumeMounts, m.name = vol.name ∧ m.mountPath = cm.2 := by
  unfold mountForVolume at h
  obtain ⟨c, hc, hsome⟩ := List.exists_of_findSome?_eq_some h
  rw [Option.map_eq_some'] at hsome
  obtain ⟨m, hfind, heq⟩ := hsome
  have hmem := List.mem_of_find?_eq_some hfind
  have hname : m.name = vol.name := by
    have := List.find?_some hfind
    simpa using this
  subst heq
  exact ⟨c, hc, rfl, m, hmem, hname, rfl⟩

theorem findInPod_some (pvc : String) (p : Pod) {info : podPVCInfo}
    (h : findInPod pvc p = some info) :
    p.phase = "Running" ∧ info.podName = p.name ∧ info.nodeName = p.nodeName ∧
    ∃ v ∈ p.volumes, v.claimName = some pvc ∧ info.volumeName = v.name ∧
      ∃ c ∈ p.containers, info.containerName = c.name ∧
        ∃ m ∈ c.volumeMounts, m.name = v.name ∧ info.mountPath = m.mountPath := by
  unfold findInPod at h
  by_cases hp : p.phase = "Running"
  case neg => rw [if_neg hp] at h; exact absurd h (by simp)
  rw [if_pos hp] at h
  obtain ⟨v, hv, hsome⟩ := List.exists_of_findSome?_eq_some h
  by_cases hc : v.claimName = some pvc
  case neg => rw [if_neg hc] at hsome; exact absurd hsome (by simp)
  rw [if_pos hc, Option.map_eq_some'] at hsome
  obtain ⟨cm, hmfv, heq⟩ := hsome
  obtain ⟨c, hcmem, hcname, m, hmmem, hmname, hmpath⟩ :=
    mountForVolume_some v p.containers hmfv
  subst heq
  exact ⟨hp, rfl, rfl, v, hv, hc, rfl, c, hcmem, hcname.symm, m, hmmem, hmname,
         hmpath.symm⟩

/-! ## C8 -/

/-- C8: findPodForPVC considers only running pods; when no running pod both
declares and mounts the claim it fails with the not-found error, even if a
non-running pod declares and mounts it. -/
theorem c8_findPodForPVC_notFound (pods : List Pod) (pvc : String)
    (h : ∀ p ∈ pods, p.phase = "Running" → declaresAndMounts p pvc = false) :
    findPodForPVC (.ok pods) pvc =
      .error ("no running pod found mounting PVC " ++ pvc) := by
  have hnone : pods.findSome? (findInPod pvc) = none := by
    rw [List.findSome?_eq_none_iff]
    intro p hp
    by_cases hrun : p.phase = "Running"
    · apply findInPod_none_of
      intro v hv hclaim c hc m hm hname
      have hne : ¬ declaresAndMounts p pvc = true := by simp [h p hp hrun]
      exact hne ((declaresAndMounts_eq_true p pvc).mpr
        ⟨v, hv, hclaim, c, hc, m, hm, hname⟩)
    · unfold findInPod
      rw [if_neg hrun]
  simp [findPodForPVC, hnone]

/-- C8 witness: a single Pending pod that declares and mounts the claim
still yields the not-found error. -/
theorem c8_witness :
    findPodForPVC (.ok [samplePodNotRunning]) "mypvc" =
      .error "no running pod found mounting PVC mypvc" ∧
    declaresAndMounts samplePodNotRunning "mypvc" = true ∧
    samplePodNotRunning.phase ≠ "Running" := by
  refine ⟨?_, by decide, by decide⟩
  exact (c8_findPodForPVC_notFound [samplePodNotRunning] "mypvc" (by decide)).trans
    (by decide)

/-! ## C9 -/

/-- C9: a successful findPodForPVC names a container holding an actual
volumeMount whose name equals the matched claim volume's name, with
mountPath taken from that mount; and a pod whose containers have no
volumeMount matching any claim-declaring volume is skipped, the search
continuing with later pods. -/
theorem c9_findPodForPVC_mount :
    (∀ (pods : List Pod) (pvc : String) (info : podPVCInfo),
      findPodForPVC (.ok pods) pvc = .ok info →
      ∃ p ∈ pods, p.phase = "Running" ∧ info.podName = p.name ∧
        info.nodeName = p.nodeName ∧
        ∃ v ∈ p.volumes, v.claimName = some pvc ∧ info.volumeName = v.name ∧
          ∃ c ∈ p.containers, info.containerName = c.name ∧
            ∃ m ∈ c.volumeMounts, m.name = v.name ∧
              info.mountPath = m.mountPath) ∧
    (∀ (q : Pod) (rest : List Pod) (pvc : String),
      (∀ v ∈ q.volumes, v.claimName = some pvc →
        ∀ c ∈ q.containers, ∀ m ∈ c.volumeMounts, m.name ≠ v.name) →
      findPodForPVC (.ok (q :: rest)) pvc = findPodForPVC (.ok rest) pvc) := by
  constructor
  · intro pods pvc info h
    have hsome : pods.findSome? (findInPod pvc) = some info := by
      rw [findPodForPVC_ok_def] at h
      cases hfs : pods.findSome? (findInPod pvc) with
      | some i => rw [hfs] at h; cases h; rfl
      | none => rw [hfs] at h; cases h
    obtain ⟨p, hp, hifp⟩ := List.exists_of_findSome?_eq_some hsome
    obtain ⟨hrun, hpn, hnn, rest⟩ := findInPod_some pvc p hifp
    exact ⟨p, hp, hrun, hpn, hnn, rest⟩
  · intro q rest pvc hq
    have hnone := findInPod_none_of pvc q hq
    rw [findPodForPVC_ok_def, findPodForPVC_ok_def, List.findSome?_cons, hnone]

/-- C9 witness: a running pod declaring the claim without a matching mount
is skipped and the next pod supplies the placement from its actual mount. -/
theorem c9_witness :
    findPodForPVC (.ok [samplePodNoMount, samplePod]) "mypvc" =
      findPodForPVC (.ok [samplePod]) "mypvc" ∧
    findPodForPVC (.ok [samplePodNoMount, samplePod]) "mypvc" =
      .ok { podName := "app-pod", containerName := "app",
            mountPath := "/var/data", volumeName := "data",
            nodeName := "node1" } := by
  have h := c9_findPodForPVC_mount.2 samplePodNoMount [samplePod] "mypvc"
    (by decide)
  exact ⟨h, h.trans (by decide)⟩

/-! ## C6 -/

/-- C6: strategy 1 excludes blank and "total" lines, skips lines with fewer
than 8 whitespace-separated fields, and for every accepted line takes size
from field 5, modTime from fields 6 and 7 joined by a space, the name from
fields 8 onward rejoined with spaces, drops "." and ".." entries, and marks
a directory exactly when field 1 starts with "d". -/
theorem c6_gnuLsParseLine (path line : String) :
    ((goTrim line = "" ∨ strStarts (goTrim line) "total" = true) →
      gnuLsParseLine path line = none) ∧
    ((goFields (goTrim line)).length < 8 → gnuLsParseLine path line = none) ∧
    (goTrim line ≠ "" → strStarts (goTrim line) "total" = false →
      8 ≤ (goFields (goTrim line)).length →
      ((joinSep " " ((goFields (goTrim line)).drop 7) = "." ∨
        joinSep " " ((goFields (goTrim line)).drop 7) = "..") →
        gnuLsParseLine path line = none) ∧
      (joinSep " " ((goFields (goTrim line)).drop 7) ≠ "." →
       joinSep " " ((goFields (goTrim line)).drop 7) ≠ ".." →
        gnuLsParseLine path line = some
          { name := joinSep " " ((goFields (goTrim line)).drop 7),
            size := (goFields (goTrim line)).getD 4 "",
            modTime := (goFields (goTrim line)).getD 5 "" ++ " " ++
                       (goFields (goTrim line)).getD 6 "",
            isDir := strStarts ((goFields (goTrim line)).getD 0 "") "d",
            path := relPath path
              (joinSep " " ((goFields (goTrim line)).drop 7)) })) := by
  refine ⟨?_, ?_, ?_⟩
  · intro h
    have hcond : (decide (goTrim line = "") || strStarts (goTrim line) "total")
        = true := by
      rcases h with h | h <;> simp [h]
    simp [gnuLsParseLine, hcond]
  · intro hlen
    by_cases hc : (decide (goTrim line = "") || strStarts (goTrim line) "total")
        = true
    · simp [gnuLsParseLine, hc]
    · rw [Bool.not_eq_true] at hc
      simp [gnuLsParseLine, hc, hlen]
  · intro hne htot hlen8
    have hc : (decide (goTrim line = "") || strStarts (goTrim line) "total")
        = false := by simp [hne, htot]
    have hnlt : ¬ (goFields (goTrim line)).length < 8 := by omega
    constructor
    · intro hdots
      rcases hdots with h | h <;> simp [gnuLsParseLine, hc, hnlt, h]
    · intro h1 h2
      simp [gnuLsParseLine, hc, hnlt, h1, h2]

/-- C6 witness: the long-format example line from the design notes parses
into exactly the expected entry. -/
theorem c6_witness :
    gnuLsParseLine "" "drwxr-xr-x 2 root root 4096 2024-01-15 10:30 subdir" =
      some { name := "subdir", size := "4096", modTime := "2024-01-15 10:30",
             isDir := true, path := "subdir" } := by
  have h := (c6_gnuLsParseLine ""
    "drwxr-xr-x 2 root root 4096 2024-01-15 10:30 subdir").2.2
    (by decide) (by decide) (by decide)
  exact (h.2 (by decide) (by decide)).trans (by decide)

/-! ## C2 -/

/-- C2 counterexample: a 6-field line accepted by the alternate-toolset
parser takes its size from field 4 and its modTime from field 5 of the line
itself; neither is an empty/placeholder value. -/
theorem c2_counterexample :
    busyboxParseLine "" "drwxr-xr-x 2 root 4096 Jan sub" =
      some { name := "sub", size := "4096", modTime := "Jan", isDir := true,
             path := "sub" } ∧
    (goFields (goTrim "drwxr-xr-x 2 root 4096 Jan sub")).length = 6 ∧
    (goFields (goTrim "drwxr-xr-x 2 root 4096 Jan sub")).getD 3 "" = "4096" ∧
    (goFields (goTrim "drwxr-xr-x 2 root 4096 Jan sub")).getD 4 "" = "Jan" ∧
    "4096" ≠ "" ∧ "Jan" ≠ "" := by
  refine ⟨by decide, by decide, by decide, by decide, by decide, by decide⟩

/-- C2 amended: for every accepted line with exactly 6 whitespace-separated
fields, the alternate-toolset parser takes size from field 4 and modTime
from field 5 and the name from field 6; nothing is synthesized as an
empty/placeholder value. -/
theorem c2_busybox6 (path line : String)
    (hne : goTrim line ≠ "") (htot : strStarts (goTrim line) "total" = false)
    (h6 : (goFields (goTrim line)).length = 6)
    (hn1 : joinSep " " ((goFields (goTrim line)).drop 5) ≠ ".")
    (hn2 : joinSep " " ((goFields (goTrim line)).drop 5) ≠ "..")
    (hn3 : joinSep " " ((goFields (goTrim line)).drop 5) ≠ "") :
    busyboxParseLine path line = some
      { name := joinSep " " ((goFields (goTrim line)).drop 5),
        size := (goFields (goTrim line)).getD 3 "",
        modTime := (goFields (goTrim line)).getD 4 "",
        isDir := strStarts ((goFields (goTrim line)).getD 0 "") "d",
        path := relPath path (joinSep " " ((goFields (goTrim line)).drop 5)) } := by
  have hc : (decide (goTrim line = "") || strStarts (goTrim line) "total")
      = false := by simp [hne, htot]
  have hnlt : ¬ (goFields (goTrim line)).length < 6 := by omega
  have hn9 : ¬ (goFields (goTrim line)).length ≥ 9 := by omega
  have hn8 : ¬ (goFields (goTrim line)).length ≥ 8 := by omega
  simp [busyboxParseLine, hc, hnlt, hn9, hn8, hn1, hn2, hn3]

/-- C2 amended witness: a concrete 6-field line and a non-root request
path. -/
theorem c2_witness :
    busyboxParseLine "sub" "-rw-r--r-- 1 root 123 Jan file.txt" =
      some { name := "file.txt", size := "123", modTime := "Jan",
             isDir := false, path := "sub/file.txt" } := by
  have h := c2_busybox6 "sub" "-rw-r--r-- 1 root 123 Jan file.txt"
    (by decide) (by decide) (by decide) (by decide) (by decide) (by decide)
  exact h.trans (by decide)

/-! ## C5 -/

/-- C5: the listing chain tries the three strategies in fixed order; the
first whose remote execution reports no error wins with its parsed entries
(whatever parsing produced), and an overall error arises exactly when all
three executions fail. -/
theorem c5_tryListFiles (r : ListChainOutcomes) (cn mp path : String) :
    (r.gnuLs.err = none →
      tryListFiles r cn mp path = .ok (parseGNUls path r.gnuLs.stdout)) ∧
    (∀ e1, r.gnuLs.err = some e1 → r.busybox.err = none →
      tryListFiles r cn mp path = .ok (parseBusybox path r.busybox.stdout)) ∧
    (∀ e1 e2, r.gnuLs.err = some e1 → r.busybox.err = some e2 →
      r.findStat.err = none →
      tryListFiles r cn mp path =
        .ok (parseFind (mp ++ "/" ++ path) path r.findStat.stdout)) ∧
    (∀ e1 e2 e3, r.gnuLs.err = some e1 → r.busybox.err = some e2 →
      r.findStat.err = some e3 →
      tryListFiles r cn mp path =
        .error ("all listing methods failed on container " ++ cn)) ∧
    (∀ msg, tryListFiles r cn mp path = .error msg →
      r.gnuLs.err ≠ none ∧ r.busybox.err ≠ none ∧ r.findStat.err ≠ none) := by
  refine ⟨?_, ?_, ?_, ?_, ?_⟩
  · intro hg
    simp [tryListFiles, listFilesGNUls, hg]
  · intro e1 hg hb
    simp [tryListFiles, listFilesGNUls, listFilesBusybox, hg, hb]
  · intro e1 e2 hg hb hf
    simp [tryListFiles, listFilesGNUls, listFilesBusybox, listFilesFind,
          hg, hb, hf]
  · intro e1 e2 e3 hg hb hf
    simp [tryListFiles, listFilesGNUls, listFilesBusybox, listFilesFind,
          hg, hb, hf]
  · intro msg h
    cases hg : r.gnuLs.err with
    | none => simp [tryListFiles, listFilesGNUls, hg] at h
    | some e1 =>
      cases hb : r.busybox.err with
      | none => simp [tryListFiles, listFilesGNUls, listFilesBusybox, hg, hb] at h
      | some e2 =>
        cases hf : r.findStat.err with
        | none =>
          simp [tryListFiles, listFilesGNUls, listFilesBusybox, listFilesFind,
                hg, hb, hf] at h
        | some e3 => exact ⟨by simp [hg], by simp [hb], by simp [hf]⟩

/-- C5 witness: a first-strategy run whose stdout parses to zero entries
still wins the chain, and a chain whose three executions all fail returns
the all-methods-failed error. -/
theorem c5_witness :
    tryListFiles chainOkEmpty "app" "/var/data" "" = .ok [] ∧
    tryListFiles chainFailAll "app" "/var/data" "" =
      .error "all listing methods failed on container app" := by
  have h1 := (c5_tryListFiles chainOkEmpty "app" "/var/data" "").1 (by decide)
  have h2 := (c5_tryListFiles chainFailAll "app" "/var/data" "").2.2.2.1
    "exec failed" "exec failed" "exec failed" (by decide) (by decide) (by decide)
  exact ⟨h1.trans (by decide), h2.trans (by decide)⟩

/-! ## C4 -/

theorem exists_shift_succ (P : Nat → Prop) (start n : Nat) (h0 : ¬ P start) :
    (∃ i, i < n ∧ P (start + 1 + i)) ↔ (∃ i, i < n + 1 ∧ P (start + i)) := by
  constructor
  · rintro ⟨i, hi, hpi⟩
    refine ⟨i + 1, by omega, ?_⟩
    have he : start + (i + 1) = start + 1 + i := by omega
    rw [he]; exact hpi
  · rintro ⟨i, hi, hpi⟩
    cases i with
    | zero => exact absurd (by simpa using hpi) h0
    | succ j =>
      refine ⟨j, by omega, ?_⟩
      have he : start + 1 + j = start + (j + 1) := by omega
      rw [he]; exact hpi

theorem pollHelperLoop_true_iff (polls : Nat → Except String String) (h : String) :
    ∀ (fuel start : Nat),
      (pollHelperLoop polls h start fuel).1 = true ↔
      ∃ i, i < fuel ∧ polls (start + i) = .ok "Running" := by
  intro fuel
  induction fuel with
  | zero => intro start; simp [pollHelperLoop]
  | succ n ih =>
    intro start
    cases hp : polls start with
    | error e =>
      have hstep : (pollHelperLoop polls h start (n + 1)).1 =
          (pollHelperLoop polls h (start + 1) n).1 := by
        simp [pollHelperLoop, hp]
      rw [hstep, ih]
      exact exists_shift_succ (fun k => polls k = .ok "Running") start n
        (by simp [hp])
    | ok phase =>
      by_cases hr : phase = "Running"
      · subst hr
        have hstep : (pollHelperLoop polls h start (n + 1)).1 = true := by
          simp [pollHelperLoop, hp]
        rw [hstep]
        simp only [true_iff]
        exact ⟨0, by omega, by rw [Nat.add_zero]; exact hp⟩
      · have hstep : (pollHelperLoop polls h start (n + 1)).1 =
            (pollHelperLoop polls h (start + 1) n).1 := by
          simp [pollHelperLoop, hp, hr]
        rw [hstep, ih]
        refine exists_shift_succ (fun k => polls k = .ok "Running") start n ?_
        simp [hp, hr]

/-- C4: createHelperPod first deletes any pre-existing pod of the
deterministic helper name (its outcome ignored), waits a fixed grace
period, creates a pod pinned to the recorded node mounting the claim at
/data with an inert long-lived command, then polls readiness in 2-second
steps up to 30 attempts; if some poll within the bound observes Running it
returns the helper name, otherwise it deletes the pod and returns a timeout
error. -/
theorem c4_createHelperPod (o : HelperOracle) (ns pvc vol node : String)
    (hc : o.createResult = .ok ()) :
    (createHelperPod o ns pvc vol node).2.take 3 =
      [HelperAction.deletePod (helperPodName pvc), HelperAction.sleepSec 2,
       HelperAction.createPod (helperPodSpec ns pvc node)] ∧
    ((helperPodSpec ns pvc node).nodeName = node ∧
     (helperPodSpec ns pvc node).volumeClaimName = pvc ∧
     (helperPodSpec ns pvc node).volumeMountPath = "/data" ∧
     (helperPodSpec ns pvc node).command = ["sleep", "300"]) ∧
    ((∃ i, i < 30 ∧ o.polls i = .ok "Running") →
      (createHelperPod o ns pvc vol node).1 = .ok (helperPodName pvc)) ∧
    ((∀ i, i < 30 → ¬ o.polls i = .ok "Running") →
      (createHelperPod o ns pvc vol node).1 =
        .error "helper pod did not start in time" ∧
      (createHelperPod o ns pvc vol node).2.getLast? =
        some (HelperAction.deletePod (helperPodName pvc))) ∧
    (∀ d, createHelperPod { o with deletePre := d } ns pvc vol node =
      createHelperPod o ns pvc vol node) := by
  refine ⟨?_, ⟨rfl, rfl, rfl, rfl⟩, ?_, ?_, fun d => rfl⟩
  · cases hl : (pollHelperLoop o.polls (helperPodName pvc) 0 30).1 <;>
      simp [createHelperPod, hc, hl]
  · intro hex
    have h1 : (pollHelperLoop o.polls (helperPodName pvc) 0 30).1 = true := by
      rw [pollHelperLoop_true_iff]
      simpa using hex
    simp [createHelperPod, hc, h1]
  · intro hall
    have h1 : (pollHelperLoop o.polls (helperPodName pvc) 0 30).1 = false := by
      cases hb : (pollHelperLoop o.polls (helperPodName pvc) 0 30).1 with
      | false => rfl
      | true =>
        obtain ⟨i, hi, hpi⟩ :=
          (pollHelperLoop_true_iff o.polls (helperPodName pvc) 30 0).mp hb
        rw [Nat.zero_add] at hpi
        exact absurd hpi (hall i hi)
    refine ⟨by simp [createHelperPod, hc, h1], ?_⟩
    simp only [createHelperPod, hc, h1]
    simp only [Bool.false_eq_true, if_false, List.cons_append, List.nil_append]
    show (([HelperAction.deletePod (helperPodName pvc), HelperAction.sleepSec 2,
            HelperAction.createPod (helperPodSpec ns pvc node)] ++
           ((pollHelperLoop o.polls (helperPodName pvc) 0 30).2 ++
            [HelperAction.deletePod (helperPodName pvc)]))).getLast? =
        some (HelperAction.deletePod (helperPodName pvc))
    rw [← List.append_assoc, List.getLast?_concat]

/-- C4 witness: a clean provision (immediately Running) yields the helper
name, and a provision stuck in Pending for all 30 attempts yields the
timeout error with a final delete of the helper pod. -/
theorem c4_witness :
    (createHelperPod helperOK "ns" "mypvc" "data" "node1").1 =
      .ok "kube-browser-helper-mypvc" ∧
    (createHelperPod helperStuck "ns" "mypvc" "data" "node1").1 =
      .error "helper pod did not start in time" ∧
    (createHelperPod helperStuck "ns" "mypvc" "data" "node1").2.getLast? =
      some (HelperAction.deletePod "kube-browser-helper-mypvc") := by
  have h1 := (c4_createHelperPod helperOK "ns" "mypvc" "data" "node1" rfl).2.2.1
    ⟨0, by omega, rfl⟩
  have h2 := (c4_createHelperPod helperStuck "ns" "mypvc" "data" "node1" rfl).2.2.2.1
    (fun i _ hr => by simp [helperStuck] at hr)
  exact ⟨h1.trans (by decide), h2.1.trans (by decide), h2.2.trans (by decide)⟩

/-! ## C3 -/

/-- C3: whenever the direct listing attempt fails and a helper pod is
provisioned, ListFiles schedules helper teardown exactly once — whatever
the helper listing attempt returns — and the caller-visible result is
independent of the teardown's own outcome, which only produces a log
line. -/
theorem c3_listFiles_teardown (o : ListFilesOracle) (ns pvc path : String)
    (info : podPVCInfo) (e hn : String)
    (hfind : findPodForPVC o.pods pvc = .ok info)
    (hdirect : tryListFiles o.direct info.containerName info.mountPath path =
      .error e)
    (hhelper : (createHelperPod o.helper ns pvc info.volumeName info.nodeName).1 =
      .ok hn) :
    (ListFiles o ns pvc path).2 = [deleteHelperPod o.deleteResult hn] ∧
    (∀ d, (ListFiles { o with deleteResult := d } ns pvc path).1 =
          (ListFiles o ns pvc path).1) := by
  constructor
  · cases hres : tryListFiles o.helperChain "helper" "/data" path with
    | ok files => simp [ListFiles, hfind, hdirect, hhelper, hres]
    | error he => simp [ListFiles, hfind, hdirect, hhelper, hres]
  · intro d
    cases hres : tryListFiles o.helperChain "helper" "/data" path with
    | ok files => simp [ListFiles, hfind, hdirect, hhelper, hres]
    | error he => simp [ListFiles, hfind, hdirect, hhelper, hres]

/-- C3 witness: a run that needs the helper, succeeds through it, and whose
async teardown fails: exactly one warning-logged teardown is scheduled and
the result is the same as with a succeeding teardown. -/
theorem c3_witness :
    (ListFiles c3WitOracle "ns" "mypvc" "").2 =
      ["Warning: failed to delete helper pod kube-browser-helper-mypvc: boom"] ∧
    (ListFiles { c3WitOracle with deleteResult := .ok () } "ns" "mypvc" "").1 =
      (ListFiles c3WitOracle "ns" "mypvc" "").1 := by
  have h := c3_listFiles_teardown c3WitOracle "ns" "mypvc" ""
    { podName := "app-pod", containerName := "app", mountPath := "/var/data",
      volumeName := "data", nodeName := "node1" }
    "all listing methods failed on container app" "kube-browser-helper-mypvc"
    (by decide) (by decide) (by decide)
  exact ⟨h.1.trans (by decide), h.2 (.ok ())⟩

/-! ## C7 -/

/-- C7: UploadFile buffers the whole payload before any remote action; a
helper pod is provisioned only when the exec channel to the real pod could
not even be established; and once the remote command has started, a stream
failure is terminal — reported with the remote stderr and with no helper
fallback. -/
theorem c7_uploadFile (o : UploadOracle) (ns pvc dest : String) :
    (∀ re, o.readData = .error re → (UploadFile o ns pvc dest).2 = []) ∧
    (∀ b, RemoteAction.streamWrite b ∈ (UploadFile o ns pvc dest).2 →
      o.readData = .ok b) ∧
    (RemoteAction.provisionHelper ∈ (UploadFile o ns pvc dest).2 →
      ∃ e, o.directExecCreate = .error e) ∧
    (∀ se, o.directExecCreate = .ok () → o.streamErr = some se →
      RemoteAction.provisionHelper ∉ (UploadFile o ns pvc dest).2 ∧
      ((UploadFile o ns pvc dest).2 = [] ∨
       (UploadFile o ns pvc dest).1 =
         .error ("failed to upload file: " ++ o.streamStderr))) := by
  refine ⟨?_, ?_, ?_, ?_⟩
  · intro re hre
    cases hfp : findPodForPVC o.pods pvc with
    | error e0 => simp [UploadFile, hfp]
    | ok info => simp [UploadFile, hfp, hre]
  · intro b hb
    cases hfp : findPodForPVC o.pods pvc with
    | error e0 => simp [UploadFile, hfp] at hb
    | ok info =>
      cases hrd : o.readData with
      | error re => simp [UploadFile, hfp, hrd] at hb
      | ok buf =>
        cases hde : o.directExecCreate with
        | ok u =>
          cases hse : o.streamErr with
          | none =>
            simp [UploadFile, hfp, hrd, hde, hse] at hb
            rw [hb]
          | some se =>
            simp [UploadFile, hfp, hrd, hde, hse] at hb
            rw [hb]
        | error execErr =>
          cases hch : (createHelperPod o.helper ns pvc info.volumeName
              info.nodeName).1 with
          | error ce => simp [UploadFile, hfp, hrd, hde, hch] at hb
          | ok hname =>
            cases hhe : o.helperExecCreate with
            | error e2 => simp [UploadFile, hfp, hrd, hde, hch, hhe] at hb
            | ok u =>
              cases hse : o.streamErr with
              | none =>
                simp [UploadFile, hfp, hrd, hde, hch, hhe, hse] at hb
                rw [hb]
              | some se =>
                simp [UploadFile, hfp, hrd, hde, hch, hhe, hse] at hb
                rw [hb]
  · intro hmem
    cases hfp : findPodForPVC o.pods pvc with
    | error e0 => simp [UploadFile, hfp] at hmem
    | ok info =>
      cases hrd : o.readData with
      | error re => simp [UploadFile, hfp, hrd] at hmem
      | ok buf =>
        cases hde : o.directExecCreate with
        | ok u =>
          cases hse : o.streamErr with
          | none => simp [UploadFile, hfp, hrd, hde, hse] at hmem
          | some se => simp [UploadFile, hfp, hrd, hde, hse] at hmem
        | error execErr => exact ⟨execErr, rfl⟩
  · intro se hde hse
    cases hfp : findPodForPVC o.pods pvc with
    | error e0 => exact ⟨by simp [UploadFile, hfp], .inl (by simp [UploadFile, hfp])⟩
    | ok info =>
      cases hrd : o.readData with
      | error re =>
        exact ⟨by simp [UploadFile, hfp, hrd], .inl (by simp [UploadFile, hfp, hrd])⟩
      | ok buf =>
        refine ⟨by simp [UploadFile, hfp, hrd, hde, hse], .inr ?_⟩
        simp [UploadFile, hfp, hrd, hde, hse]

/-- C7 witness: a direct upload whose remote command starts and exits
non-zero is a terminal failure carrying the remote stderr, with no helper
provisioned; and a run whose payload cannot be buffered performs no remote
action at all. -/
theorem c7_witness :
    (UploadFile c7WitOracle "ns" "mypvc" "f.txt").1 =
      .error "failed to upload file: tee: no space left" ∧
    RemoteAction.provisionHelper ∉ (UploadFile c7WitOracle "ns" "mypvc" "f.txt").2 ∧
    (UploadFile c7WitReadFailOracle "ns" "mypvc" "f.txt").2 = [] := by
  have h4 := (c7_uploadFile c7WitOracle "ns" "mypvc" "f.txt").2.2.2
    "command terminated with exit code 1" rfl rfl
  have h1 := (c7_uploadFile c7WitReadFailOracle "ns" "mypvc" "f.txt").1
    "connection reset" rfl
  refine ⟨?_, h4.1, h1⟩
  rcases h4.2 with h | h
  · exact absurd h (by decide)
  · exact h.trans (by decide)

/-! ## C1 -/

/-- C1 counterexample: a ListFiles run whose direct attempt fails and whose
helper listing attempt also fails returns an error that names only the
helper-attempt failure; the direct-attempt error is not carried. -/
theorem c1_counterexample :
    tryListFiles c1CexOracle.direct "app" "/var/data" "" =
      .error "all listing methods failed on container app" ∧
    (ListFiles c1CexOracle "ns" "mypvc" "").1 =
      .error
        "failed to list files even with helper pod: all listing methods failed on container helper" ∧
    strContains
      "failed to list files even with helper pod: all listing methods failed on container helper"
      "all listing methods failed on container app" = false := by
  exact ⟨by decide, by decide, by decide⟩

/-- C1 amended: only the ListFiles path in which helper provisioning itself
fails carries both underlying errors; every other terminal failure after a
failed direct attempt carries exactly one of them — the helper-attempt
failures of all three operations carry only the helper-attempt error, the
helper-provisioning failures of DownloadFile and UploadFile carry only the
direct-attempt error, and a failed upload stream reports only the remote
stderr. -/
theorem c1_terminal_errors :
    (∀ (o : ListFilesOracle) (ns pvc path : String) (info : podPVCInfo)
       (e he : String),
      findPodForPVC o.pods pvc = .ok info →
      tryListFiles o.direct info.containerName info.mountPath path = .error e →
      (createHelperPod o.helper ns pvc info.volumeName info.nodeName).1 =
        .error he →
      (ListFiles o ns pvc path).1 =
        .error ("direct exec failed (" ++ e ++
                ") and helper pod creation failed (" ++ he ++ ")") ∧
      strContains ("direct exec failed (" ++ e ++
                ") and helper pod creation failed (" ++ he ++ ")") e = true ∧
      strContains ("direct exec failed (" ++ e ++
                ") and helper pod creation failed (" ++ he ++ ")") he = true) ∧
    (∀ (o : ListFilesOracle) (ns pvc path : String) (info : podPVCInfo)
       (e hn he2 : String),
      findPodForPVC o.pods pvc = .ok info →
      tryListFiles o.direct info.containerName info.mountPath path = .error e →
      (createHelperPod o.helper ns pvc info.volumeName info.nodeName).1 =
        .ok hn →
      tryListFiles o.helperChain "helper" "/data" path = .error he2 →
      (ListFiles o ns pvc path).1 =
        .error ("failed to list files even with helper pod: " ++ he2)) ∧
    (∀ (o : DownloadOracle) (ns pvc fp : String) (info : podPVCInfo)
       (execErr ce : String),
      findPodForPVC o.pods pvc = .ok info →
      o.directCat.err = some execErr →
      (createHelperPod o.helper ns pvc info.volumeName info.nodeName).1 =
        .error ce →
      (DownloadFile o ns pvc fp).1 = .error ("download failed: " ++ execErr)) ∧
    (∀ (o : DownloadOracle) (ns pvc fp : String) (info : podPVCInfo)
       (execErr hn e2 : String),
      findPodForPVC o.pods pvc = .ok info →
      o.directCat.err = some execErr →
      (createHelperPod o.helper ns pvc info.volumeName info.nodeName).1 =
        .ok hn →
      o.helperCat.err = some e2 →
      (DownloadFile o ns pvc fp).1 =
        .error ("download failed even with helper pod: " ++ e2)) ∧
    (∀ (o : UploadOracle) (ns pvc dp : String) (info : podPVCInfo)
       (buf : List Nat) (execErr ce : String),
      findPodForPVC o.pods pvc = .ok info →
      o.readData = .ok buf →
      o.directExecCreate = .error execErr →
      (createHelperPod o.helper ns pvc info.volumeName info.nodeName).1 =
        .error ce →
      (UploadFile o ns pvc dp).1 = .error ("upload failed: " ++ execErr)) ∧
    (∀ (o : UploadOracle) (ns pvc dp : String) (info : podPVCInfo)
       (buf : List Nat) (execErr hn e2 : String),
      findPodForPVC o.pods pvc = .ok info →
      o.readData = .ok buf →
      o.directExecCreate = .error execErr →
      (createHelperPod o.helper ns pvc info.volumeName info.nodeName).1 =
        .ok hn →
      o.helperExecCreate = .error e2 →
      (UploadFile o ns pvc dp).1 =
        .error ("upload failed even with helper pod: " ++ e2)) ∧
    (∀ (o : UploadOracle) (ns pvc dp : String) (info : podPVCInfo)
       (buf : List Nat) (se : String),
      findPodForPVC o.pods pvc = .ok info →
      o.readData = .ok buf →
      o.directExecCreate = .ok () →
      o.streamErr = some se →
      (UploadFile o ns pvc dp).1 =
        .error ("failed to upload file: " ++ o.streamStderr)) := by
  refine ⟨?_, ?_, ?_, ?_, ?_, ?_, ?_⟩
  · intro o ns pvc path info e he hfp hdir hch
    refine ⟨by simp [ListFiles, hfp, hdir, hch], ?_, ?_⟩
    · have hm : "direct exec failed (" ++ e ++
          ") and helper pod creation failed (" ++ he ++ ")" =
          "direct exec failed (" ++
          (e ++ (") and helper pod creation failed (" ++ he ++ ")")) := by
        simp [String.append_assoc]
      rw [hm]
      exact strContains_mid _ _ _
    · have hm : "direct exec failed (" ++ e ++
          ") and helper pod creation failed (" ++ he ++ ")" =
          ("direct exec failed (" ++ e ++
           ") and helper pod creation failed (") ++ (he ++ ")") := by
        simp [String.append_assoc]
      rw [hm]
      exact strContains_mid _ _ _
  · intro o ns pvc path info e hn he2 hfp hdir hch hres
    simp [ListFiles, hfp, hdir, hch, hres]
  · intro o ns pvc fp info execErr ce hfp hcat hch
    simp [DownloadFile, hfp, hcat, hch]
  · intro o ns pvc fp info execErr hn e2 hfp hcat hch hcat2
    simp [DownloadFile, hfp, hcat, hch, hcat2]
  · intro o ns pvc dp info buf execErr ce hfp hrd hde hch
    simp [UploadFile, hfp, hrd, hde, hch]
  · intro o ns pvc dp info buf execErr hn e2 hfp hrd hde hch hhe
    simp [UploadFile, hfp, hrd, hde, hch, hhe]
  · intro o ns pvc dp info buf se hfp hrd hde hse
    simp [UploadFile, hfp, hrd, hde, hse]

/-- C1 amended witness: one concrete run per terminal failure path, with
the exact message each produces. -/
theorem c1_terminal_errors_witness :
    (ListFiles c1WitListOracle "ns" "mypvc" "").1 =
      .error
        "direct exec failed (all listing methods failed on container app) and helper pod creation failed (failed to create helper pod: quota exceeded)" ∧
    (ListFiles c1CexOracle "ns" "mypvc" "").1 =
      .error
        "failed to list files even with helper pod: all listing methods failed on container helper" ∧
    (DownloadFile c1WitDownOracle "ns" "mypvc" "dir/f.txt").1 =
      .error "download failed: exec failed" ∧
    (DownloadFile c1WitDownOracle2 "ns" "mypvc" "dir/f.txt").1 =
      .error "download failed even with helper pod: cat: no such file" ∧
    (UploadFile c1WitUpOracle "ns" "mypvc" "f").1 =
      .error "upload failed: no SPDY channel" ∧
    (UploadFile c1WitUpOracle2 "ns" "mypvc" "f").1 =
      .error "upload failed even with helper pod: no SPDY channel either" ∧
    (UploadFile c7WitOracle "ns" "mypvc" "f").1 =
      .error "failed to upload file: tee: no space left" := by
  obtain ⟨hA, hB, hC, hD, hE, hF, hG⟩ := c1_terminal_errors
  refine ⟨?_, ?_, ?_, ?_, ?_, ?_, ?_⟩
  · exact ((hA c1WitListOracle "ns" "mypvc" ""
      { podName := "app-pod", containerName := "app", mountPath := "/var/data",
        volumeName := "data", nodeName := "node1" }
      "all listing methods failed on container app"
      "failed to create helper pod: quota exceeded"
      (by decide) (by decide) (by decide)).1).trans (by decide)
  · exact (hB c1CexOracle "ns" "mypvc" ""
      { podName := "app-pod", containerName := "app", mountPath := "/var/data",
        volumeName := "data", nodeName := "node1" }
      "all listing methods failed on container app" "kube-browser-helper-mypvc"
      "all listing methods failed on container helper"
      (by decide) (by decide) (by decide) (by decide)).trans (by decide)
  · exact (hC c1WitDownOracle "ns" "mypvc" "dir/f.txt"
      { podName := "app-pod", containerName := "app", mountPath := "/var/data",
        volumeName := "data", nodeName := "node1" }
      "exec failed" "failed to create helper pod: quota exceeded"
      (by decide) (by decide) (by decide)).trans (by decide)
  · exact (hD c1WitDownOracle2 "ns" "mypvc" "dir/f.txt"
      { podName := "app-pod", containerName := "app", mountPath := "/var/data",
        volumeName := "data", nodeName := "node1" }
      "exec failed" "kube-browser-helper-mypvc" "cat: no such file"
      (by decide) (by decide) (by decide) (by decide)).trans (by decide)
  · exact (hE c1WitUpOracle "ns" "mypvc" "f"
      { podName := "app-pod", containerName := "app", mountPath := "/var/data",
        volumeName := "data", nodeName := "node1" }
      [104, 105] "no SPDY channel" "failed to create helper pod: quota exceeded"
      (by decide) (by decide) (by decide) (by decide)).trans (by decide)
  · exact (hF c1WitUpOracle2 "ns" "mypvc" "f"
      { podName := "app-pod", containerName := "app", mountPath := "/var/data",
        volumeName := "data", nodeName := "node1" }
      [104, 105] "no SPDY channel" "kube-browser-helper-mypvc"
      "no SPDY channel either"
      (by decide) (by decide) (by decide) (by decide) (by decide)).trans (by decide)
  · exact (hG c7WitOracle "ns" "mypvc" "f"
      { podName := "app-pod", containerName := "app", mountPath := "/var/data",
        volumeName := "data", nodeName := "node1" }
      [104, 105] "command terminated with exit code 1"
      (by decide) (by decide) (by decide) (by decide)).trans (by decide)

end KubeBrowser
